import Mathlib

/-!
Verification of the zero-copy buffer-exchange subsystem of `xsk-rs`
(`src/socket/tx_queue.rs` and `src/umem/mmap/mod.rs`), as a shallow
embedding in Lean 4.

The transmit queue (`TxQueue`) wraps a single-producer ring shared with
the kernel. The ring type (`XskRingProd`) and the reservation, submit
and needs-wakeup primitives live in the external ring library
(`libbpf_sys` via `crate::ring::XskRingProd`), which is not under
`src/`; they are modelled here from the spec (sections 3, 4.2 and 9)
and from the behaviour documented on `TxQueue::produce` itself
("if the length of `frames` is greater than the number of available
spaces on the underlying ring buffer then no frames at all will be
submitted").

Cursors are modelled as unbounded, monotonically increasing naturals.
The real cursors are 32-bit and wrap, but every quantity the algorithm
computes is a difference bounded by the ring size (< 2^32), so the
wrap-around arithmetic agrees with the unbounded model; this follows
the spec's own design note ("plain integer offsets/indices … all
arithmetic performed modulo a power-of-two capacity").

Syscalls (`sendto`, `mmap`, `munmap`) are external effects; each is
modelled by an explicit outcome parameter threaded into the function
that performs it.
-/

/-- Linux errno value for EAGAIN. -/
def EAGAIN : Int := 11

/-- Linux errno value for EBUSY. -/
def EBUSY : Int := 16

/-- Linux errno value for ENETDOWN. -/
def ENETDOWN : Int := 100

/-- Linux errno value for ENOBUFS. -/
def ENOBUFS : Int := 105

/-- The needs-wakeup bit published by the kernel in the ring's flags
word (`libbpf_sys::XDP_RING_NEED_WAKEUP`). -/
def XDP_RING_NEED_WAKEUP : Nat := 1

/-- A transmit descriptor slot on the ring (`libbpf_sys::xdp_desc`):
frame address (region-relative byte offset), payload length, flags. -/
structure XdpDesc where
  addr : Nat
  len : Nat
  options : Nat
deriving Repr, DecidableEq

/-- A frame handle (`crate::umem::frame::Frame`, repository code not
under `src/`). Modelled from the spec: a frame is referenced by an
offset into the shared memory region and carries the length of its
valid payload and its flags — exactly the data `produce` writes into a
descriptor. -/
structure Frame where
  addr : Nat
  len : Nat
  options : Nat
deriving Repr, DecidableEq

/-- Writing a frame's data into a transmit descriptor
(`Frame::write_xdp_desc`). Modelled from the spec: "a descriptor is
written referencing the corresponding input frame's offset, length,
and flags". -/
def Frame.write_xdp_desc (f : Frame) : XdpDesc :=
  { addr := f.addr, len := f.len, options := f.options }

/-- The producer side of a ring (`crate::ring::XskRingProd`, wrapping
`libbpf_sys::xsk_ring_prod`). Modelled from the spec: producer and
consumer cursors, a power-of-two capacity, a descriptor array sized to
capacity, and the kernel-published flags word; `cachedProd` and
`cachedCons` are the producer-side caches of the two shared cursors
kept by the ring library. -/
structure XskRingProd where
  size : Nat
  cachedProd : Nat
  cachedCons : Nat
  producer : Nat
  consumer : Nat
  descs : List XdpDesc
  flags : Nat
deriving Repr, DecidableEq

/-- Number of free slots actually available on the ring: capacity
minus the number of entries produced but not yet consumed. -/
def freeSlots (r : XskRingProd) : Nat :=
  r.size - (r.producer - r.consumer)

/-- The ring library's free-entries check (`xsk_prod_nb_free`).
Modelled from the spec and the ring library: it first consults the
cached consumer cursor; only if the cache shows too little room does
it refresh the cache from the shared consumer cursor (stored as
`consumer + size`). Returns the updated ring and the free count it
observed. -/
def xsk_prod_nb_free (r : XskRingProd) (nb : Nat) : XskRingProd × Nat :=
  if nb ≤ r.cachedCons - r.cachedProd then
    (r, r.cachedCons - r.cachedProd)
  else
    ({ r with cachedCons := r.consumer + r.size },
      r.consumer + r.size - r.cachedProd)

/-- Result of a reservation attempt: the updated ring, the number of
slots reserved, and the starting slot index. -/
structure ReserveResult where
  ring : XskRingProd
  cnt : Nat
  idx : Nat
deriving Repr, DecidableEq

/-- The reservation primitive (`libbpf_sys::_xsk_ring_prod__reserve`).
Modelled from the spec and the documented behaviour of
`TxQueue::produce`: all-or-nothing — if fewer than `nb` entries are
free it reserves nothing and returns 0; otherwise it reserves exactly
`nb` at the cached producer cursor and advances the cache. -/
def xsk_ring_prod_reserve (r : XskRingProd) (nb : Nat) : ReserveResult :=
  let p := xsk_prod_nb_free r nb
  if p.2 < nb then
    { ring := p.1, cnt := 0, idx := 0 }
  else
    { ring := { p.1 with cachedProd := p.1.cachedProd + nb },
      cnt := nb, idx := p.1.cachedProd }

/-- The publication primitive (`libbpf_sys::_xsk_ring_prod__submit`).
Modelled from the spec: advances the shared producer cursor by the
reserved count in a single step, making the written descriptors
visible to the consumer. -/
def xsk_ring_prod_submit (r : XskRingProd) (nb : Nat) : XskRingProd :=
  { r with producer := r.producer + nb }

/-- The needs-wakeup check (`libbpf_sys::_xsk_ring_prod__needs_wakeup`).
Modelled from the spec: reads the kernel-published flags word and
tests the `XDP_RING_NEED_WAKEUP` bit. -/
def xsk_ring_prod_needs_wakeup (r : XskRingProd) : Bool :=
  r.flags &&& XDP_RING_NEED_WAKEUP != 0

/-- The transmitting side of an AF_XDP socket (`TxQueue` in
`src/socket/tx_queue.rs`): the producer ring plus the socket's file
descriptor (the `Arc<Socket>` keep-alive field has no behaviour). -/
structure TxQueue where
  ring : XskRingProd
  fd : Nat
deriving Repr, DecidableEq

/-- The descriptor-writing loop inside `TxQueue::produce`: for each
frame, obtain the slot `descs[idx & mask]`
(`libbpf_sys::_xsk_ring_prod__tx_desc`; `idx % size` here since the
capacity is a power of two), write the frame's descriptor into it, and
increment `idx`. -/
def writeDescs (r : XskRingProd) (frames : List Frame) (idx : Nat) : XskRingProd :=
  match frames with
  | [] => r
  | f :: rest =>
      writeDescs { r with descs := r.descs.set (idx % r.size) f.write_xdp_desc }
        rest (idx + 1)

/-- `TxQueue::produce`: hand the frames to the kernel for
transmission. Returns 0 immediately on an empty batch; otherwise
reserves `frames.length` slots (all-or-nothing), and when the
reservation succeeds writes one descriptor per reserved slot and
submits them, returning the reserved count. -/
def TxQueue.produce (q : TxQueue) (frames : List Frame) : TxQueue × Nat :=
  if frames.length = 0 then
    (q, 0)
  else
    let res := xsk_ring_prod_reserve q.ring frames.length
    if 0 < res.cnt then
      ({ q with
          ring := xsk_ring_prod_submit
            (writeDescs res.ring (frames.take res.cnt) res.idx) res.cnt },
        res.cnt)
    else
      ({ q with ring := res.ring }, res.cnt)

/-- Outcome of the zero-length non-blocking `sendto` syscall issued by
`TxQueue::wakeup`: either a non-negative return value, or a failure
with an errno. -/
inductive SendtoResult where
  | ok (ret : Nat)
  | err (errno : Int)
deriving Repr, DecidableEq

/-- `TxQueue::wakeup`: issue a zero-length non-blocking send on the
socket. On failure, the errnos ENOBUFS, EAGAIN, EBUSY and ENETDOWN are
swallowed (the match arm does nothing); any other errno is returned as
an error. The syscall outcome is the `send` parameter. -/
def TxQueue.wakeup (_q : TxQueue) (send : SendtoResult) : Except Int Unit :=
  match send with
  | .ok _ => .ok ()
  | .err e =>
      if e = ENOBUFS ∨ e = EAGAIN ∨ e = EBUSY ∨ e = ENETDOWN then .ok ()
      else .error e

/-- `TxQueue::needs_wakeup`: whether the kernel has requested an
explicit wakeup on the tx ring. -/
def TxQueue.needs_wakeup (q : TxQueue) : Bool :=
  xsk_ring_prod_needs_wakeup q.ring

/-- `TxQueue::produce_and_wakeup`: produce, then wake the kernel if
(and only if) the needs-wakeup flag is set. Returns the final queue,
the `io::Result<usize>` (the produced count, or the wakeup error), and
the number of wakeup syscalls issued. -/
def TxQueue.produce_and_wakeup (q : TxQueue) (frames : List Frame)
    (send : SendtoResult) : TxQueue × Except Int Nat × Nat :=
  let p := q.produce frames
  if p.1.needs_wakeup then
    match p.1.wakeup send with
    | .ok _ => (p.1, .ok p.2, 1)
    | .error e => (p.1, .error e, 1)
  else
    (p.1, .ok p.2, 0)

/-- A sequence of `produce` calls applied in order, discarding the
returned counts. -/
def produceSeq (q : TxQueue) (batches : List (List Frame)) : TxQueue :=
  batches.foldl (fun acc b => (acc.produce b).1) q

/-- Well-formedness of a producer ring: the consumer never overtakes
the producer, the ring is not over-committed, the producer-cursor
cache is exact between `produce` calls (every reservation is submitted
in full before `produce` returns), and the consumer-cursor cache never
overstates the consumer's progress. -/
def ringInv (r : XskRingProd) : Prop :=
  r.consumer ≤ r.producer ∧
  r.producer - r.consumer ≤ r.size ∧
  r.cachedProd = r.producer ∧
  r.cachedCons ≤ r.consumer + r.size

instance (r : XskRingProd) : Decidable (ringInv r) := by
  unfold ringInv
  exact inferInstance

/-- An anonymous memory-mapped region (`Mmap` in
`src/umem/mmap/mod.rs`, non-test configuration): the mapping's base
address (non-null) and its length in bytes. `#[derive(Clone)]` on this
struct is a field-wise copy, so a clone shares the same address
range. -/
structure Mmap where
  addr : Nat
  len : Nat
deriving Repr, DecidableEq

/-- `Clone::clone` as derived for `Mmap`: a field-wise copy sharing
the same address and length. -/
def Mmap.clone (m : Mmap) : Mmap :=
  { addr := m.addr, len := m.len }

/-- Outcome of the `libc::mmap` syscall made by `Mmap::new` with the
given length, `PROT_READ | PROT_WRITE`, and
`MAP_ANONYMOUS | MAP_PRIVATE` (plus `MAP_HUGETLB` when requested):
either a mapped base address (the OS returns a non-null, page-aligned
address on success), or `MAP_FAILED` with an errno. -/
inductive MmapSyscall where
  | mapped (addr : Nat)
  | failed (errno : Int)
deriving Repr, DecidableEq

/-- `Mmap::new(len, use_huge_pages)`: calls `mmap`; if the syscall
returns `MAP_FAILED` the errno is surfaced as the error, otherwise the
region handle is built from the returned address and the requested
length. The syscall outcome is the `sys` parameter; the
`use_huge_pages` flag only alters the flags passed to the syscall. -/
def Mmap.new (len : Nat) (_use_huge_pages : Bool) (sys : MmapSyscall) :
    Except Int Mmap :=
  match sys with
  | .failed e => .error e
  | .mapped addr => .ok { addr := addr, len := len }

/-- Modelled from the spec: "allocates exactly `length` bytes,
zero-initialized" — the byte contents of a fresh `MAP_ANONYMOUS`
mapping, which the OS guarantees are zero-filled. -/
def mappedContents (m : Mmap) : List Nat :=
  List.replicate m.len 0

/-- The observable system effects of dropping `Mmap` values: the
argument pairs (address, length) of every `munmap` invocation made so
far, and the error-log lines emitted. -/
structure SysTrace where
  munmapCalls : List (Nat × Nat)
  logs : List String
deriving Repr, DecidableEq

/-- `Drop::drop` for `Mmap`: invokes `munmap` on the region's address
range; a non-zero return is logged via `error!` and otherwise ignored.
The function returns only the updated trace — like Rust's
`Drop::drop`, it has no error channel at all. The `munmap` return
value is the `ret` parameter. -/
def Mmap.dropRun (m : Mmap) (ret : Int) (t : SysTrace) : SysTrace :=
  let t1 := { t with munmapCalls := t.munmapCalls ++ [(m.addr, m.len)] }
  if ret != 0 then
    { t1 with logs := t1.logs ++ ["munmap failed"] }
  else
    t1

/-- The trace of a program that creates one region, clones it (as
`#[derive(Clone)]` permits), and lets both values be dropped; both
`munmap` calls succeed (return 0). -/
def cloneThenDropBoth (addr len : Nat) : SysTrace :=
  let m := Mmap.mk addr len
  let m2 := m.clone
  Mmap.dropRun m2 0 (Mmap.dropRun m 0 { munmapCalls := [], logs := [] })

/-- A well-formed empty transmit queue over a ring of capacity 8 (the
cached consumer cursor starts at `consumer + size`, as the ring
library initialises it). -/
def qEmpty8 : TxQueue :=
  { ring :=
      { size := 8, cachedProd := 0, cachedCons := 8, producer := 0,
        consumer := 0, descs := List.replicate 8 ⟨0, 0, 0⟩, flags := 0 },
    fd := 3 }

/-- The scenario ring of claim C2: capacity 8, 3 frames already in
flight (producer at 3, consumer at 0), caches exact. -/
def qInflight3 : TxQueue :=
  { ring :=
      { size := 8, cachedProd := 3, cachedCons := 8, producer := 3,
        consumer := 0, descs := List.replicate 8 ⟨0, 0, 0⟩, flags := 0 },
    fd := 3 }

/-- The same empty capacity-8 ring, with the kernel-published
needs-wakeup flag set. -/
def qNeedsWakeup8 : TxQueue :=
  { ring :=
      { size := 8, cachedProd := 0, cachedCons := 8, producer := 0,
        consumer := 0, descs := List.replicate 8 ⟨0, 0, 0⟩, flags := 1 },
    fd := 3 }

/-- A batch of ten distinct frames. -/
def framesTen : List Frame :=
  [⟨0, 64, 0⟩, ⟨2048, 64, 0⟩, ⟨4096, 64, 0⟩, ⟨6144, 64, 0⟩,
   ⟨8192, 64, 0⟩, ⟨10240, 64, 0⟩, ⟨12288, 64, 0⟩, ⟨14336, 64, 0⟩,
   ⟨16384, 64, 0⟩, ⟨18432, 64, 0⟩]

/-- A batch of two frames. -/
def framesTwo : List Frame :=
  [⟨0, 64, 0⟩, ⟨2048, 128, 0⟩]

theorem writeDescs_fields (frames : List Frame) (r : XskRingProd) (idx : Nat) :
    (writeDescs r frames idx).size = r.size ∧
    (writeDescs r frames idx).cachedProd = r.cachedProd ∧
    (writeDescs r frames idx).cachedCons = r.cachedCons ∧
    (writeDescs r frames idx).producer = r.producer ∧
    (writeDescs r frames idx).consumer = r.consumer ∧
    (writeDescs r frames idx).flags = r.flags := by
  induction frames generalizing r idx with
  | nil => simp [writeDescs]
  | cons f rest ih =>
      simpa [writeDescs] using
        ih { r with descs := r.descs.set (idx % r.size) f.write_xdp_desc } (idx + 1)

theorem reserve_fields (r : XskRingProd) (nb : Nat) :
    (xsk_ring_prod_reserve r nb).ring.size = r.size ∧
    (xsk_ring_prod_reserve r nb).ring.producer = r.producer ∧
    (xsk_ring_prod_reserve r nb).ring.consumer = r.consumer ∧
    (xsk_ring_prod_reserve r nb).ring.descs = r.descs ∧
    (xsk_ring_prod_reserve r nb).ring.flags = r.flags := by
  unfold xsk_ring_prod_reserve xsk_prod_nb_free
  split <;> dsimp only <;> split <;> simp

theorem produce_fields (q : TxQueue) (frames : List Frame) :
    ((q.produce frames).1).ring.size = q.ring.size ∧
    ((q.produce frames).1).ring.consumer = q.ring.consumer ∧
    ((q.produce frames).1).ring.flags = q.ring.flags ∧
    ((q.produce frames).1).fd = q.fd ∧
    ((q.produce frames).1).ring.producer = q.ring.producer + (q.produce frames).2 := by
  by_cases h0 : frames.length = 0
  · simp [TxQueue.produce, h0]
  · have hr := reserve_fields q.ring frames.length
    have hw := writeDescs_fields (frames.take (xsk_ring_prod_reserve q.ring frames.length).cnt)
      (xsk_ring_prod_reserve q.ring frames.length).ring
      (xsk_ring_prod_reserve q.ring frames.length).idx
    simp only [TxQueue.produce, h0, if_false, xsk_ring_prod_submit]
    split_ifs <;> simp_all

theorem reserve_bounds (r : XskRingProd) (nb : Nat) (h : ringInv r) :
    (xsk_ring_prod_reserve r nb).cnt ≤ freeSlots r ∧
    ((xsk_ring_prod_reserve r nb).cnt = 0 ∨ (xsk_ring_prod_reserve r nb).cnt = nb) ∧
    (xsk_ring_prod_reserve r nb).ring.cachedProd =
      r.cachedProd + (xsk_ring_prod_reserve r nb).cnt ∧
    (xsk_ring_prod_reserve r nb).ring.cachedCons ≤ r.consumer + r.size := by
  obtain ⟨h1, h2, h3, h4⟩ := h
  unfold xsk_ring_prod_reserve xsk_prod_nb_free freeSlots
  split <;> dsimp only <;> split <;> simp <;> omega

theorem produce_result_fields (q : TxQueue) (frames : List Frame)
    (h0 : frames.length ≠ 0) :
    (q.produce frames).2 = (xsk_ring_prod_reserve q.ring frames.length).cnt ∧
    (q.produce frames).1.ring.size =
      (xsk_ring_prod_reserve q.ring frames.length).ring.size ∧
    (q.produce frames).1.ring.producer =
      (xsk_ring_prod_reserve q.ring frames.length).ring.producer +
        (xsk_ring_prod_reserve q.ring frames.length).cnt ∧
    (q.produce frames).1.ring.consumer =
      (xsk_ring_prod_reserve q.ring frames.length).ring.consumer ∧
    (q.produce frames).1.ring.cachedProd =
      (xsk_ring_prod_reserve q.ring frames.length).ring.cachedProd ∧
    (q.produce frames).1.ring.cachedCons =
      (xsk_ring_prod_reserve q.ring frames.length).ring.cachedCons := by
  have hw := writeDescs_fields
    (frames.take (xsk_ring_prod_reserve q.ring frames.length).cnt)
    (xsk_ring_prod_reserve q.ring frames.length).ring
    (xsk_ring_prod_reserve q.ring frames.length).idx
  simp only [TxQueue.produce, if_neg h0, xsk_ring_prod_submit]
  split_ifs with hpos <;> simp_all

theorem produce_step_inv (q : TxQueue) (frames : List Frame) (h : ringInv q.ring) :
    ringInv (q.produce frames).1.ring ∧ (q.produce frames).2 ≤ freeSlots q.ring := by
  by_cases h0 : frames.length = 0
  · simpa [TxQueue.produce, h0] using h
  · obtain ⟨h1, h2, h3, h4⟩ := h
    obtain ⟨hcle, _, hcp, hcc⟩ := reserve_bounds q.ring frames.length ⟨h1, h2, h3, h4⟩
    obtain ⟨hrs, hrp, hrc, _, _⟩ := reserve_fields q.ring frames.length
    obtain ⟨e2, es, ep, ec, ecp, ecc⟩ := produce_result_fields q frames h0
    unfold ringInv freeSlots at *
    refine ⟨⟨?_, ?_, ?_, ?_⟩, ?_⟩ <;> omega

theorem produceSeq_inv (batches : List (List Frame)) (q : TxQueue)
    (h : ringInv q.ring) :
    ringInv (produceSeq q batches).ring ∧
    (produceSeq q batches).ring.size = q.ring.size := by
  induction batches generalizing q with
  | nil => exact ⟨h, rfl⟩
  | cons b rest ih =>
      have hstep := produce_step_inv q b h
      have hsize := (produce_fields q b).1
      have hrest := ih (q.produce b).1 hstep.1
      simp only [produceSeq, List.foldl_cons] at hrest ⊢
      exact ⟨hrest.1, by rw [hrest.2, hsize]⟩

theorem produce_needs_wakeup (q : TxQueue) (frames : List Frame) :
    ((q.produce frames).1).needs_wakeup = q.needs_wakeup := by
  unfold TxQueue.needs_wakeup xsk_ring_prod_needs_wakeup
  rw [(produce_fields q frames).2.2.1]

/-- C7: `produce` called with an empty frame list always returns 0
immediately and performs no ring interaction: the queue (producer
cursor and all descriptor slots included) is returned unchanged. -/
theorem produce_empty_is_noop (q : TxQueue) : q.produce [] = (q, 0) := by
  simp [TxQueue.produce]

/-- C1: for every non-empty batch, if the number of frames requested
exceeds the number of free slots on the transmit ring, `produce`
reserves zero slots, submits nothing, and returns 0: the producer and
consumer cursors, the producer-cursor cache, and every descriptor slot
are unchanged (all-or-nothing per call). -/
theorem produce_insufficient_space_submits_nothing (q : TxQueue)
    (frames : List Frame) (hne : frames ≠ []) (hinv : ringInv q.ring)
    (hover : freeSlots q.ring < frames.length) :
    (q.produce frames).2 = 0 ∧
    (q.produce frames).1.ring.producer = q.ring.producer ∧
    (q.produce frames).1.ring.consumer = q.ring.consumer ∧
    (q.produce frames).1.ring.cachedProd = q.ring.cachedProd ∧
    (q.produce frames).1.ring.descs = q.ring.descs := by
  have h0 : frames.length ≠ 0 := by simpa using hne
  obtain ⟨hcle, hcor, hcp, _⟩ := reserve_bounds q.ring frames.length hinv
  have hcnt : (xsk_ring_prod_reserve q.ring frames.length).cnt = 0 := by
    rcases hcor with h | h
    · exact h
    · omega
  obtain ⟨hrs, hrp, hrc, hrd, hrf⟩ := reserve_fields q.ring frames.length
  simp only [TxQueue.produce, if_neg h0, hcnt]
  simp [hrp, hrc, hrd, hcnt ▸ hcp]

/-- Witness for C1: a full request of ten frames against an empty ring
of capacity eight is refused whole. -/
theorem produce_insufficient_space_submits_nothing_witness :
    (qEmpty8.produce framesTen).2 = 0 ∧
    (qEmpty8.produce framesTen).1.ring.producer = qEmpty8.ring.producer ∧
    (qEmpty8.produce framesTen).1.ring.consumer = qEmpty8.ring.consumer ∧
    (qEmpty8.produce framesTen).1.ring.cachedProd = qEmpty8.ring.cachedProd ∧
    (qEmpty8.produce framesTen).1.ring.descs = qEmpty8.ring.descs :=
  produce_insufficient_space_submits_nothing qEmpty8 framesTen (by decide)
    (by decide) (by decide)

/-- C2 counterexample: on a ring of capacity 8 with 3 frames in flight,
`produce` with 10 frames returns 0, not the 5 free slots the claim
predicts — the reservation primitive is all-or-nothing, never partial. -/
theorem produce_capacity8_inflight3_returns_zero_not_five :
    (qInflight3.produce framesTen).2 = 0 ∧
    (qInflight3.produce framesTen).2 ≠ 5 := by
  decide

/-- C2 (amended): when `produce` is called with more frames than there
are free slots (ring not full), it reserves and submits nothing and
returns 0, leaving every input frame unsubmitted; in particular, on a
ring of capacity 8 with 3 frames in flight, `produce` with 10 frames
returns 0 and leaves the cursors and descriptor slots unchanged. -/
theorem produce_capacity8_inflight3_submits_nothing :
    (qInflight3.produce framesTen).2 = 0 ∧
    (qInflight3.produce framesTen).1.ring.producer = 3 ∧
    (qInflight3.produce framesTen).1.ring.consumer = 0 ∧
    (qInflight3.produce framesTen).1.ring.cachedProd = 3 ∧
    (qInflight3.produce framesTen).1.ring.descs = qInflight3.ring.descs := by
  decide

/-- C4: `wakeup` returns Ok whenever the zero-length non-blocking send
succeeds or fails with errno ENOBUFS, EAGAIN, EBUSY or ENETDOWN, and
returns an error (carrying that errno) if and only if the send fails
with any other errno. -/
theorem wakeup_errno_classification (q : TxQueue) :
    (∀ n, q.wakeup (.ok n) = .ok ()) ∧
    (∀ e, (e = ENOBUFS ∨ e = EAGAIN ∨ e = EBUSY ∨ e = ENETDOWN) →
      q.wakeup (.err e) = .ok ()) ∧
    (∀ e, ¬(e = ENOBUFS ∨ e = EAGAIN ∨ e = EBUSY ∨ e = ENETDOWN) →
      q.wakeup (.err e) = .error e) := by
  refine ⟨fun n => rfl, fun e he => ?_, fun e he => ?_⟩
  · simp only [TxQueue.wakeup, if_pos he]
  · simp only [TxQueue.wakeup, if_neg he]

/-- Witness for C4: ENOBUFS (105) is swallowed, EACCES (13) is
surfaced. -/
theorem wakeup_errno_classification_witness :
    qEmpty8.wakeup (.err 105) = .ok () ∧ qEmpty8.wakeup (.err 13) = .error 13 :=
  ⟨(wakeup_errno_classification qEmpty8).2.1 105 (by decide),
   (wakeup_errno_classification qEmpty8).2.2 13 (by decide)⟩

/-- C5: `produce_and_wakeup` performs `produce` and then issues
exactly one wakeup call if and only if the kernel-published
needs-wakeup flag is set (zero calls when clear); on success it
returns the produced count, and a wakeup failure is propagated as the
error result. -/
theorem produce_and_wakeup_wakes_iff_flag (q : TxQueue) (frames : List Frame)
    (send : SendtoResult) :
    ((q.produce_and_wakeup frames send).2.2 =
      if q.needs_wakeup then 1 else 0) ∧
    (q.needs_wakeup = false →
      (q.produce_and_wakeup frames send).2.1 = .ok (q.produce frames).2) ∧
    ((q.produce frames).1.wakeup send = .ok () →
      (q.produce_and_wakeup frames send).2.1 = .ok (q.produce frames).2) ∧
    (∀ e, q.needs_wakeup = true →
      (q.produce frames).1.wakeup send = .error e →
      (q.produce_and_wakeup frames send).2.1 = .error e) := by
  have hf := produce_needs_wakeup q frames
  simp only [TxQueue.produce_and_wakeup, hf]
  cases hq : q.needs_wakeup with
  | false => simp
  | true =>
      cases hw : (q.produce frames).1.wakeup send with
      | ok u => simp [hw]
      | error e => simp [hw]

/-- Witness for C5: with the needs-wakeup flag set and a send that
fails with EACCES (13), one wakeup call is made and the error is
propagated. -/
theorem produce_and_wakeup_wakes_iff_flag_witness :
    ((qNeedsWakeup8.produce_and_wakeup framesTwo (.err 13)).2.2 =
      if qNeedsWakeup8.needs_wakeup then 1 else 0) ∧
    (qNeedsWakeup8.needs_wakeup = false →
      (qNeedsWakeup8.produce_and_wakeup framesTwo (.err 13)).2.1 =
        .ok (qNeedsWakeup8.produce framesTwo).2) ∧
    ((qNeedsWakeup8.produce framesTwo).1.wakeup (.err 13) = .ok () →
      (qNeedsWakeup8.produce_and_wakeup framesTwo (.err 13)).2.1 =
        .ok (qNeedsWakeup8.produce framesTwo).2) ∧
    (∀ e, qNeedsWakeup8.needs_wakeup = true →
      (qNeedsWakeup8.produce framesTwo).1.wakeup (.err 13) = .error e →
      (qNeedsWakeup8.produce_and_wakeup framesTwo (.err 13)).2.1 = .error e) :=
  produce_and_wakeup_wakes_iff_flag qNeedsWakeup8 framesTwo (.err 13)

/-- C6: over any sequence of `produce` calls on a well-formed ring of
power-of-two capacity, the cursor arithmetic never over-commits: at
every intermediate state the producer cursor exceeds the consumer
cursor by at most the capacity, and `produce` never reserves more
slots than are free at the moment of the call. -/
theorem tx_ring_never_overcommits (q : TxQueue) (batches : List (List Frame))
    (_hpow : ∃ k, q.ring.size = 2 ^ k) (hinv : ringInv q.ring) :
    ∀ n,
      (produceSeq q (batches.take n)).ring.producer -
        (produceSeq q (batches.take n)).ring.consumer ≤ q.ring.size ∧
      ∀ frames,
        ((produceSeq q (batches.take n)).produce frames).2 ≤
          freeSlots (produceSeq q (batches.take n)).ring := by
  intro n
  obtain ⟨hi, hs⟩ := produceSeq_inv (batches.take n) q hinv
  refine ⟨?_, fun frames => (produce_step_inv _ frames hi).2⟩
  obtain ⟨_, h2, _, _⟩ := hi
  omega

/-- Witness for C6: two two-frame batches on an empty capacity-8
ring. -/
theorem tx_ring_never_overcommits_witness :
    (produceSeq qEmpty8 ([framesTwo, framesTwo].take 2)).ring.producer -
      (produceSeq qEmpty8 ([framesTwo, framesTwo].take 2)).ring.consumer ≤
      qEmpty8.ring.size ∧
    ∀ frames,
      ((produceSeq qEmpty8 ([framesTwo, framesTwo].take 2)).produce frames).2 ≤
        freeSlots (produceSeq qEmpty8 ([framesTwo, framesTwo].take 2)).ring :=
  tx_ring_never_overcommits qEmpty8 [framesTwo, framesTwo] ⟨3, rfl⟩ (by decide) 2

/-- C10: `produce_and_wakeup` is not atomic on error: whenever it
returns an error (the wakeup failed), the frames reserved by the inner
`produce` call remain submitted — the returned queue is exactly the
post-`produce` queue, its producer cursor stands at the old cursor
plus the submitted count, the error value carries only the errno (not
the count), and exactly one wakeup call was made. -/
theorem produce_and_wakeup_error_keeps_submission (q : TxQueue)
    (frames : List Frame) (send : SendtoResult) (e : Int)
    (herr : (q.produce_and_wakeup frames send).2.1 = .error e) :
    (q.produce_and_wakeup frames send).1 = (q.produce frames).1 ∧
    (q.produce_and_wakeup frames send).1.ring.producer =
      q.ring.producer + (q.produce frames).2 ∧
    (q.produce_and_wakeup frames send).2.2 = 1 := by
  have hp := (produce_fields q frames).2.2.2.2
  simp only [TxQueue.produce_and_wakeup] at herr ⊢
  by_cases hq : (q.produce frames).1.needs_wakeup
  · simp only [hq, if_true] at herr ⊢
    cases hw : (q.produce frames).1.wakeup send with
    | ok u => rw [hw] at herr; exact Except.noConfusion herr
    | error e2 => simp_all
  · simp [hq] at herr

/-- Witness for C10: with the needs-wakeup flag set and the send
failing with EACCES (13), the error is returned while the two produced
frames stay submitted and the producer cursor stays advanced. -/
theorem produce_and_wakeup_error_keeps_submission_witness :
    (qNeedsWakeup8.produce_and_wakeup framesTwo (.err 13)).1 =
      (qNeedsWakeup8.produce framesTwo).1 ∧
    (qNeedsWakeup8.produce_and_wakeup framesTwo (.err 13)).1.ring.producer =
      qNeedsWakeup8.ring.producer + (qNeedsWakeup8.produce framesTwo).2 ∧
    (qNeedsWakeup8.produce_and_wakeup framesTwo (.err 13)).2.2 = 1 :=
  produce_and_wakeup_error_keeps_submission qNeedsWakeup8 framesTwo (.err 13) 13 rfl

/-- C3 (code bug): because `Mmap` derives `Clone` while its `Drop`
unconditionally calls `munmap`, a program that clones a region and
lets both values be dropped invokes `munmap` twice on the same address
range — evaluated here for a region at address 4096 of length 8192,
contradicting "released exactly once". -/
theorem mmap_clone_then_drop_unmaps_twice :
    (cloneThenDropBoth 4096 8192).munmapCalls = [(4096, 8192), (4096, 8192)] ∧
    (cloneThenDropBoth 4096 8192).munmapCalls.count (4096, 8192) = 2 :=
  ⟨rfl, rfl⟩

/-- C8: `Mmap::new` returns an OS-level error exactly when the mmap
syscall fails (propagating its errno and retaining no partial state),
and otherwise returns a region of exactly the requested length whose
contents are zero-initialized. -/
theorem mmap_new_error_iff_syscall_failure (len : Nat) (huge : Bool)
    (sys : MmapSyscall) :
    (∀ e, Mmap.new len huge sys = .error e ↔ sys = .failed e) ∧
    (∀ m, Mmap.new len huge sys = .ok m →
      m.len = len ∧ mappedContents m = List.replicate len 0) := by
  cases sys with
  | mapped addr =>
      refine ⟨fun e => ?_, fun m hm => ?_⟩
      · simp [Mmap.new]
      · simp only [Mmap.new, Except.ok.injEq] at hm
        subst hm
        exact ⟨rfl, rfl⟩
  | failed e0 =>
      refine ⟨fun e => ?_, fun m hm => ?_⟩
      · simp [Mmap.new]
      · exact absurd hm (by simp [Mmap.new])

/-- Witness for C8: a successful 4096-byte mapping at address 65536. -/
theorem mmap_new_error_iff_syscall_failure_witness :
    (∀ e, Mmap.new 4096 false (.mapped 65536) = .error e ↔
      MmapSyscall.mapped 65536 = .failed e) ∧
    (∀ m, Mmap.new 4096 false (.mapped 65536) = .ok m →
      m.len = 4096 ∧ mappedContents m = List.replicate 4096 0) :=
  mmap_new_error_iff_syscall_failure 4096 false (.mapped 65536)

/-- C9: destruction of the shared memory region never fails from the
caller's perspective: `Drop` invokes `munmap` once and only returns an
updated trace (its type has no error channel, mirroring Rust's
`Drop::drop`); a failing `munmap` only appends an error-log line,
and nothing is logged when it succeeds. -/
theorem mmap_drop_infallible (m : Mmap) (ret : Int) (t : SysTrace) :
    (m.dropRun ret t).munmapCalls = t.munmapCalls ++ [(m.addr, m.len)] ∧
    (ret = 0 → (m.dropRun ret t).logs = t.logs) ∧
    (ret ≠ 0 → (m.dropRun ret t).logs = t.logs ++ ["munmap failed"]) := by
  unfold Mmap.dropRun
  by_cases h : ret = 0
  · subst h; simp
  · simp [h]

/-- Witness for C9: a failing `munmap` (return value −1) is logged and
swallowed. -/
theorem mmap_drop_infallible_witness :
    ((Mmap.mk 4096 8192).dropRun (-1) ⟨[], []⟩).munmapCalls =
      ([] : List (Nat × Nat)) ++ [(4096, 8192)] ∧
    ((-1 : Int) = 0 → ((Mmap.mk 4096 8192).dropRun (-1) ⟨[], []⟩).logs = []) ∧
    ((-1 : Int) ≠ 0 → ((Mmap.mk 4096 8192).dropRun (-1) ⟨[], []⟩).logs =
      ([] : List String) ++ ["munmap failed"]) :=
  mmap_drop_infallible (Mmap.mk 4096 8192) (-1) ⟨[], []⟩
